import Mathlib

/-!
Verification of the `DataHash_v2_core.cpp` MEX wrapper from the
MATLAB-VariableSaveManager repository.

The source file defines a single MEX entry point (`MexFunction::operator()`)
that receives a MATLAB `uint8` array, reads its linear byte buffer, hashes
it with `XXH64(ptr, nbytes, 0)` from the vendored xxHash-0.8.2 library, and
returns the 64-bit digest as a `uint64` scalar.

The development below embeds, shallowly:
  * the XXH64 algorithm itself (the vendored xxHash library is not part of
    the `src/` tree; it is modelled from the spec's pinned external
    collaborator `XXH64(pointer, length, seed) -> uint64`, following the
    published XXH64 specification, 64-bit arithmetic being `Nat` modulo
    `2 ^ 64`);
  * the marshaling wrapper `mexFunction`, translated line by line from
    `MexFunction::operator()`.
-/

/-! ## 64-bit arithmetic on `Nat` -/

/-- The modulus of 64-bit unsigned arithmetic. -/
def mask64 : Nat := 2 ^ 64

/-- 64-bit wrapping addition. -/
def add64 (a b : Nat) : Nat := (a + b) % mask64

/-- 64-bit wrapping multiplication. -/
def mul64 (a b : Nat) : Nat := (a * b) % mask64

/-- 64-bit wrapping subtraction (two's complement style). -/
def sub64 (a b : Nat) : Nat := (a + (mask64 - b % mask64)) % mask64

/-- 64-bit left rotation by `r` bits, `0 < r < 64`, of a value `< 2 ^ 64`. -/
def rotl64 (x r : Nat) : Nat := ((x <<< r) ||| (x >>> (64 - r))) % mask64

/-- Bitwise exclusive or (width-preserving on values `< 2 ^ 64`). -/
def xor64 (a b : Nat) : Nat := a ^^^ b

/-! ## The XXH64 algorithm

Modelled from the spec: the external hash collaborator
`XXH64(pointer, length, seed) -> uint64` (the vendored xxHash-0.8.2 library
is not under `src/`); the definitions follow the published XXH64
specification, whose five prime constants and round structure are fixed by
the algorithm. A byte is a `Fin 256`; a buffer is a `List (Fin 256)` in
memory order. -/

def prime64_1 : Nat := 0x9E3779B185EBCA87
def prime64_2 : Nat := 0xC2B2AE3D27D4EB4F
def prime64_3 : Nat := 0x165667B19E3779F9
def prime64_4 : Nat := 0x85EBCA77C2B2AE63
def prime64_5 : Nat := 0x27D4EB2F165667C5

/-- Little-endian read of a byte list as an unsigned integer. -/
def readLE (l : List (Fin 256)) : Nat :=
  l.foldr (fun b acc => acc * 256 + b.val) 0

/-- One accumulator round: `rotl(acc + lane * P2, 31) * P1`. -/
def XXH64_round (acc lane : Nat) : Nat :=
  mul64 (rotl64 (add64 acc (mul64 lane prime64_2)) 31) prime64_1

/-- Merging of one accumulator into the converged hash. -/
def XXH64_mergeRound (acc v : Nat) : Nat :=
  add64 (mul64 (xor64 acc (XXH64_round 0 v)) prime64_1) prime64_4

/-- The final avalanche mixing. -/
def XXH64_avalanche (h : Nat) : Nat :=
  let h1 := mul64 (xor64 h (h >>> 33)) prime64_2
  let h2 := mul64 (xor64 h1 (h1 >>> 29)) prime64_3
  xor64 h2 (h2 >>> 32)

/-- Mixing of one trailing byte into the hash: `rotl(h ^ b * P5, 11) * P1`. -/
def XXH64_step1 (h : Nat) (b : Fin 256) : Nat :=
  mul64 (rotl64 (xor64 h (mul64 b.val prime64_5)) 11) prime64_1

/-- Mixing of one trailing 4-byte lane: `rotl(h ^ lane * P1, 23) * P2 + P3`. -/
def XXH64_step4 (h lane : Nat) : Nat :=
  add64 (mul64 (rotl64 (xor64 h (mul64 lane prime64_1)) 23) prime64_2) prime64_3

/-- Mixing of one trailing 8-byte lane: `rotl(h ^ round(0, lane), 27) * P1 + P4`. -/
def XXH64_step8 (h lane : Nat) : Nat :=
  add64 (mul64 (rotl64 (xor64 h (XXH64_round 0 lane)) 27) prime64_1) prime64_4

/-- Tail loop over single bytes, then avalanche. -/
def XXH64_finalize1 (h : Nat) : List (Fin 256) → Nat
  | [] => XXH64_avalanche h
  | b :: rest => XXH64_finalize1 (XXH64_step1 h b) rest

/-- Tail step over one 4-byte lane when at least four bytes remain. -/
def XXH64_finalize4 (h : Nat) : List (Fin 256) → Nat
  | b0 :: b1 :: b2 :: b3 :: rest =>
      XXH64_finalize1 (XXH64_step4 h (readLE [b0, b1, b2, b3])) rest
  | l => XXH64_finalize1 h l

/-- Splitting of a buffer into its leading 8-byte lanes (read little-endian,
in order) and the remaining tail of fewer than eight bytes. -/
def XXH64_lanes8 : List (Fin 256) → List Nat × List (Fin 256)
  | b0 :: b1 :: b2 :: b3 :: b4 :: b5 :: b6 :: b7 :: rest =>
      let p := XXH64_lanes8 rest
      (readLE [b0, b1, b2, b3, b4, b5, b6, b7] :: p.1, p.2)
  | l => ([], l)

/-- Tail loop over 8-byte lanes while at least eight bytes remain: each
lane is mixed in by `XXH64_step8`, in buffer order. -/
def XXH64_finalize8 (h : Nat) (l : List (Fin 256)) : Nat :=
  let p := XXH64_lanes8 l
  XXH64_finalize4 (p.1.foldl XXH64_step8 h) p.2

/-- Main loop: consume 32-byte stripes into the four accumulators while at
least 32 bytes remain; returns the accumulators and the unconsumed tail. -/
def XXH64_stripes (v1 v2 v3 v4 : Nat) (l : List (Fin 256)) :
    Nat × Nat × Nat × Nat × List (Fin 256) :=
  if h32 : 32 ≤ l.length then
    XXH64_stripes
      (XXH64_round v1 (readLE (l.take 8)))
      (XXH64_round v2 (readLE ((l.drop 8).take 8)))
      (XXH64_round v3 (readLE ((l.drop 16).take 8)))
      (XXH64_round v4 (readLE ((l.drop 24).take 8)))
      (l.drop 32)
  else
    (v1, v2, v3, v4, l)
termination_by l.length
decreasing_by simp only [List.length_drop]; omega

/-- Convergence of the four accumulators left by the main loop, addition of
the total length, and the tail loops on the unconsumed bytes. -/
def XXH64_convergeTail (len : Nat) (s : Nat × Nat × Nat × Nat × List (Fin 256)) : Nat :=
  let w1 := s.1
  let w2 := s.2.1
  let w3 := s.2.2.1
  let w4 := s.2.2.2.1
  let rest := s.2.2.2.2
  let acc0 := add64 (add64 (rotl64 w1 1) (rotl64 w2 7))
    (add64 (rotl64 w3 12) (rotl64 w4 18))
  let acc1 := XXH64_mergeRound (XXH64_mergeRound (XXH64_mergeRound
    (XXH64_mergeRound acc0 w1) w2) w3) w4
  XXH64_finalize8 (add64 acc1 len) rest

/-- The XXH64 hash of a byte sequence at a given seed. -/
def XXH64 (input : List (Fin 256)) (seed : Nat) : Nat :=
  if 32 ≤ input.length then
    XXH64_convergeTail input.length (XXH64_stripes
      (add64 seed (add64 prime64_1 prime64_2))
      (add64 seed prime64_2)
      (add64 seed 0)
      (sub64 seed prime64_1) input)
  else
    XXH64_finalize8 (add64 (add64 seed prime64_5) input.length) input

/-- Fuel-indexed variant of the main stripe loop: one unit of fuel is spent
per iteration, `none` signals fuel exhaustion.  Used to exhibit that the
loop terminates within a number of iterations bounded by the input length. -/
def XXH64_stripesFuel (fuel : Nat) (v1 v2 v3 v4 : Nat) (l : List (Fin 256)) :
    Option (Nat × Nat × Nat × Nat × List (Fin 256)) :=
  match fuel with
  | 0 => none
  | fuel + 1 =>
    if 32 ≤ l.length then
      XXH64_stripesFuel fuel
        (XXH64_round v1 (readLE (l.take 8)))
        (XXH64_round v2 (readLE ((l.drop 8).take 8)))
        (XXH64_round v3 (readLE ((l.drop 16).take 8)))
        (XXH64_round v4 (readLE ((l.drop 24).take 8)))
        (l.drop 32)
    else
      some (v1, v2, v3, v4, l)

/-- Fuel-indexed variant of `XXH64`: the stripe loop runs on the given fuel
budget; the tail loops are structural recursions over the byte list and
terminate by construction. -/
def XXH64Fuel (fuel : Nat) (input : List (Fin 256)) (seed : Nat) : Option Nat :=
  if 32 ≤ input.length then
    (XXH64_stripesFuel fuel
      (add64 seed (add64 prime64_1 prime64_2))
      (add64 seed prime64_2)
      (add64 seed 0)
      (sub64 seed prime64_1) input).map (XXH64_convergeTail input.length)
  else
    some (XXH64_finalize8 (add64 (add64 seed prime64_5) input.length) input)

/-! ## The MATLAB call boundary

The wrapper receives MATLAB arrays through the MEX `ArgumentList`.  A
MATLAB array is modelled by its class: a `uint8` array carries its
dimension vector and its linear (column-major) byte buffer, whose length a
valid MATLAB array ties to the product of the dimensions (`numel`); an
array of any other class carries just that class, since the wrapper never
reads anything else from it. -/

/-- MATLAB classes other than `uint8` that a caller could pass. -/
inductive MatClass
  | double
  | single
  | int32
  | char
  | logical
deriving DecidableEq

/-- A MATLAB `uint8` array: dimension vector, linear byte buffer, and the
MATLAB array invariant `numel = buffer length`. -/
structure MatU8Array where
  dims : List Nat
  data : List (Fin 256)
  wf : dims.prod = data.length

/-- A MATLAB array as received across the MEX boundary. -/
inductive MatArray
  | u8 (a : MatU8Array)
  | nonU8 (c : MatClass)

/-- The single failure mode: the input cannot be interpreted as a byte
sequence.  This models the exception thrown by the move-construction
`TypedArray<uint8_t> bytestream = std::move(inputs[0])` when the run-time
class of `inputs[0]` is not `uint8`. -/
inductive MexError
  | invalidInput
deriving DecidableEq

/-- The returned MATLAB `uint64` scalar. -/
structure MatUInt64Scalar where
  value : Nat
deriving DecidableEq

/-- Models `factory.createScalar<uint64_t>(v)`: the value is stored in a
64-bit unsigned slot. -/
def createScalarUInt64 (v : Nat) : MatUInt64Scalar :=
  ⟨v % mask64⟩

/-- Models `bytestream.getNumberOfElements()`, MATLAB's `numel`. -/
def getNumberOfElements (a : MatU8Array) : Nat :=
  a.dims.prod

/-- Whether an array is representable as a byte sequence for the wrapper,
i.e. is a `uint8` array. -/
def isByteStream : MatArray → Bool
  | MatArray.u8 _ => true
  | MatArray.nonU8 _ => false

/-- The MEX entry point `MexFunction::operator()`, translated line by line.
`arg0` is `inputs[0]`; `rest` holds any further arguments of the call.
  * `unsigned long int seed = 0;`
  * `TypedArray<uint8_t> bytestream = std::move(inputs[0]);` — fails with
    `InvalidInput` when `inputs[0]` is not a `uint8` array;
  * `size_t nbytes = bytestream.getNumberOfElements();`
  * `buffer_ptr_t<uint8_t> bytestream_bf = bytestream.release();` and
    `unsigned char* pbytestream = bytestream_bf.get();` — the linear byte
    buffer;
  * `XXH64_hash_t hash = XXH64(pbytestream, nbytes, seed);` — hash the
    first `nbytes` bytes of the buffer;
  * `outputs[0] = factory.createScalar<uint64_t>(hash);`. -/
def mexFunction (arg0 : MatArray) (rest : List MatArray) :
    Except MexError MatUInt64Scalar :=
  let seed : Nat := 0
  match arg0 with
  | MatArray.nonU8 _ => Except.error MexError.invalidInput
  | MatArray.u8 a =>
    let nbytes : Nat := getNumberOfElements a
    let pbytestream : List (Fin 256) := a.data
    let hash : Nat := XXH64 (pbytestream.take nbytes) seed
    Except.ok (createScalarUInt64 hash)

/-- The empty `uint8` array (`0×0`, as MATLAB's `[]`). -/
def emptyU8 : MatU8Array :=
  ⟨[0, 0], [], rfl⟩

/-- The `1×3` `uint8` array holding the bytes of `"abc"`. -/
def abcU8 : MatU8Array :=
  ⟨[1, 3], [0x61, 0x62, 0x63], rfl⟩

/-- A `2×3` `uint8` array with six sample bytes. -/
def sampleArr23 : MatU8Array :=
  ⟨[2, 3], [10, 20, 30, 40, 50, 60], rfl⟩

/-- The `6×1` reshape of `sampleArr23`: same linear buffer, other shape. -/
def sampleArr61 : MatU8Array :=
  ⟨[6, 1], [10, 20, 30, 40, 50, 60], rfl⟩

/-! ## Range lemmas: 64-bit operations stay below `2 ^ 64` -/

theorem mask64_pos : 0 < mask64 := by
  simp [mask64]

theorem add64_lt (a b : Nat) : add64 a b < mask64 :=
  Nat.mod_lt _ mask64_pos

theorem mul64_lt (a b : Nat) : mul64 a b < mask64 :=
  Nat.mod_lt _ mask64_pos

theorem shiftRight_le_self (x k : Nat) : x >>> k ≤ x := by
  rw [Nat.shiftRight_eq_div_pow]
  exact Nat.div_le_self _ _

theorem xor64_lt {a b : Nat} (ha : a < mask64) (hb : b < mask64) :
    xor64 a b < mask64 := by
  simp only [mask64] at ha hb ⊢
  exact Nat.xor_lt_two_pow ha hb

theorem XXH64_avalanche_lt (h : Nat) : XXH64_avalanche h < mask64 := by
  unfold XXH64_avalanche
  exact xor64_lt (mul64_lt _ _)
    (lt_of_le_of_lt (shiftRight_le_self _ _) (mul64_lt _ _))

theorem XXH64_finalize1_lt (l : List (Fin 256)) : ∀ h : Nat, XXH64_finalize1 h l < mask64 := by
  induction l with
  | nil => intro h; exact XXH64_avalanche_lt h
  | cons b rest ih => intro h; exact ih _

theorem XXH64_finalize4_lt (l : List (Fin 256)) (h : Nat) : XXH64_finalize4 h l < mask64 := by
  match l with
  | b0 :: b1 :: b2 :: b3 :: rest => exact XXH64_finalize1_lt _ _
  | [] => exact XXH64_finalize1_lt _ _
  | [b0] => exact XXH64_finalize1_lt _ _
  | [b0, b1] => exact XXH64_finalize1_lt _ _
  | [b0, b1, b2] => exact XXH64_finalize1_lt _ _

theorem XXH64_finalize8_lt (h : Nat) (l : List (Fin 256)) : XXH64_finalize8 h l < mask64 := by
  unfold XXH64_finalize8
  exact XXH64_finalize4_lt _ _

theorem XXH64_convergeTail_lt (len : Nat) (s : Nat × Nat × Nat × Nat × List (Fin 256)) :
    XXH64_convergeTail len s < mask64 :=
  XXH64_finalize8_lt _ _

theorem XXH64_lt (input : List (Fin 256)) (seed : Nat) : XXH64 input seed < mask64 := by
  unfold XXH64
  split
  · exact XXH64_convergeTail_lt _ _
  · exact XXH64_finalize8_lt _ _

/-! ## Completeness of the fueled main loop -/

theorem XXH64_stripesFuel_complete :
    ∀ (fuel : Nat) (l : List (Fin 256)) (v1 v2 v3 v4 : Nat), l.length < fuel →
      XXH64_stripesFuel fuel v1 v2 v3 v4 l = some (XXH64_stripes v1 v2 v3 v4 l) := by
  intro fuel
  induction fuel with
  | zero => intro l v1 v2 v3 v4 hl; exact absurd hl (Nat.not_lt_zero _)
  | succ fuel ih =>
    intro l v1 v2 v3 v4 hl
    rw [XXH64_stripes]
    by_cases h32 : 32 ≤ l.length
    · simp only [XXH64_stripesFuel, if_pos h32, dif_pos h32]
      exact ih _ _ _ _ _ (by simp only [List.length_drop]; omega)
    · simp only [XXH64_stripesFuel, if_neg h32, dif_neg h32]

/-! ## Claim theorems -/

/-- Claim C1: for every byte sequence handed to the wrapper, the returned
value equals `XXH64(data, 0)` — the hashing is delegated entirely to the
XXH64 algorithm and the seed is always the constant 0. -/
theorem mexFunction_delegates_to_XXH64 (a : MatU8Array) (rest : List MatArray) :
    mexFunction (MatArray.u8 a) rest = Except.ok ⟨XXH64 a.data 0⟩ := by
  simp only [mexFunction, getNumberOfElements, createScalarUInt64, a.wf, List.take_length]
  rw [Nat.mod_eq_of_lt (XXH64_lt a.data 0)]

/-- Claim C2: the empty byte sequence is a valid input: hashing a
zero-length buffer succeeds and returns the published XXH64 reference
value for empty input at seed 0, `0xEF46DB3751D8E999`. -/
theorem hash_empty_reference :
    XXH64 [] 0 = 0xEF46DB3751D8E999 ∧
      mexFunction (MatArray.u8 emptyU8) [] = Except.ok ⟨0xEF46DB3751D8E999⟩ :=
  ⟨rfl, rfl⟩

/-- Claim C3: hashing the 3-byte sequence `0x61 0x62 0x63` (`"abc"`) at
seed 0 returns the published reference XXH64 digest `0x44BC2CF5AD770999`. -/
theorem hash_abc_reference :
    XXH64 [0x61, 0x62, 0x63] 0 = 0x44BC2CF5AD770999 ∧
      mexFunction (MatArray.u8 abcU8) [] = Except.ok ⟨0x44BC2CF5AD770999⟩ :=
  ⟨rfl, rfl⟩

/-- Claim C4: the operation fails with `InvalidInput` exactly when the
supplied input is not representable as a byte sequence (not a `uint8`
array); every byte-sequence input, the empty one included, succeeds. -/
theorem mexFunction_error_iff_not_byteStream (arg0 : MatArray) (rest : List MatArray) :
    mexFunction arg0 rest = Except.error MexError.invalidInput ↔ isByteStream arg0 = false := by
  cases arg0 with
  | u8 a => simp [mexFunction, isByteStream]
  | nonU8 c => simp [mexFunction, isByteStream]

/-- Claim C6: the operation is deterministic — the output is a pure
function of the buffer contents (and the fixed seed 0): two calls whose
buffers are byte-for-byte identical return identical hashes, whatever the
shapes and the further arguments of the two calls. -/
theorem mexFunction_deterministic (a1 a2 : MatU8Array) (r1 r2 : List MatArray)
    (hdata : a1.data = a2.data) :
    mexFunction (MatArray.u8 a1) r1 = mexFunction (MatArray.u8 a2) r2 := by
  simp only [mexFunction, getNumberOfElements, a1.wf, a2.wf, hdata]

/-- Witness for C6 at a concrete input: the `1×3` and `3×1` arrays holding
the bytes of `"abc"` hash identically on repeated calls. -/
theorem mexFunction_deterministic_witness :
    mexFunction (MatArray.u8 abcU8) [] = mexFunction (MatArray.u8 abcU8) [] :=
  mexFunction_deterministic abcU8 abcU8 [] [] rfl

/-- Claim C7: the result is surfaced as an unsigned value of the full
64-bit range: the wrapper returns the XXH64 digest exactly, with no
narrowing and no reinterpretation, and it fits in 64 unsigned bits. -/
theorem mexFunction_result_full_uint64 (a : MatU8Array) (rest : List MatArray) :
    ∃ s : MatUInt64Scalar, mexFunction (MatArray.u8 a) rest = Except.ok s ∧
      s.value = XXH64 a.data 0 ∧ s.value < 2 ^ 64 := by
  refine ⟨⟨XXH64 a.data 0⟩, ?_, rfl, ?_⟩
  · simp only [mexFunction, getNumberOfElements, createScalarUInt64, a.wf, List.take_length]
    rw [Nat.mod_eq_of_lt (XXH64_lt a.data 0)]
  · have h := XXH64_lt a.data 0
    simpa [mask64] using h

/-- Claim C8: the hash is total on all finite inputs and the main loop
terminates within a number of iterations bounded by the input length: with
fuel `length + 1` the fueled algorithm completes and agrees with `XXH64`. -/
theorem XXH64Fuel_complete (input : List (Fin 256)) (seed : Nat) :
    XXH64Fuel (input.length + 1) input seed = some (XXH64 input seed) := by
  rw [XXH64Fuel, XXH64]
  by_cases h32 : 32 ≤ input.length
  · simp only [if_pos h32]
    rw [XXH64_stripesFuel_complete _ _ _ _ _ _ (Nat.lt_succ_self _)]
    rfl
  · simp only [if_neg h32]

/-- Claim C9: the output depends only on the first positional argument —
any further arguments supplied to the call are never read, so two calls
with the same first argument return the same result whatever the rest. -/
theorem mexFunction_ignores_extra_args (arg0 : MatArray) (r1 r2 : List MatArray) :
    mexFunction arg0 r1 = mexFunction arg0 r2 := rfl

/-- Claim C10: the hash is insensitive to the array's shape — the wrapper
hashes `getNumberOfElements()` bytes of the linear buffer, so two `uint8`
arrays with the same linear element sequence, e.g. an `N×M` array and its
`N*M×1` reshape, hash identically. -/
theorem mexFunction_shape_insensitive (d1 d2 : List Nat) (data : List (Fin 256))
    (w1 : d1.prod = data.length) (w2 : d2.prod = data.length) (rest : List MatArray) :
    mexFunction (MatArray.u8 ⟨d1, data, w1⟩) rest =
      mexFunction (MatArray.u8 ⟨d2, data, w2⟩) rest := by
  simp [mexFunction, getNumberOfElements, w1, w2]

/-- Witness for C10 at a concrete input: the `2×3` array and its `6×1`
reshape hash identically. -/
theorem mexFunction_shape_insensitive_witness :
    mexFunction (MatArray.u8 sampleArr23) [] = mexFunction (MatArray.u8 sampleArr61) [] :=
  mexFunction_shape_insensitive [2, 3] [6, 1] [10, 20, 30, 40, 50, 60] rfl rfl []
